import Mathlib

/-!
Shallow embedding of the `doforme` CLI tool (src/doforme/config.py and
src/doforme/cli.py) and proofs about the properties claimed of it.

Strings are modelled as `List Char`.  The persisted configuration file is
modelled by its parse outcome: `json.load` either fails (raw non-JSON
content) or yields a JSON value, modelled by `JVal` below.  Python
exceptions raised by the embedded code paths are modelled with
`Except Unit`.
-/

set_option autoImplicit false

/-- A parsed JSON value, as produced by `json.load` on the config file.
JSON arrays are omitted: no code path of the repository produces or
consumes them, and no claim mentions them. -/
inductive JVal where
  | jnull
  | jbool (b : Bool)
  | jnum (n : Int)
  | jstr (s : List Char)
  | jobj (fields : List (List Char × JVal))

/-- Python truthiness of a JSON-decoded value (`if x:`). -/
def pyTruthy : JVal → Bool
  | .jnull => false
  | .jbool b => b
  | .jnum n => n != 0
  | .jstr s => !s.isEmpty
  | .jobj fields => !fields.isEmpty

/-- Lookup in a JSON object's field list (Python `dict.get` / `dict[k]`). -/
def dictLookup : List (List Char × JVal) → List Char → Option JVal
  | [], _ => none
  | (k', v) :: rest, k => if k' = k then some v else dictLookup rest k

/-- Replace the value of every binding of key `k` by `v`. -/
def dictReplace : List (List Char × JVal) → List Char → JVal →
    List (List Char × JVal)
  | [], _, _ => []
  | (k', w) :: rest, k, v =>
    (if k' = k then (k, v) else (k', w)) :: dictReplace rest k v

/-- Python `config[k] = v` on a dict: overwrite an existing key in place,
otherwise append the new binding at the end (insertion order preserved). -/
def dictSet (fields : List (List Char × JVal)) (k : List Char) (v : JVal) :
    List (List Char × JVal) :=
  if (dictLookup fields k).isSome then dictReplace fields k v
  else fields ++ [(k, v)]

/-- State of the persisted config file `~/.config/doforme/config.json`:
absent, present but not readable as JSON (`json.load` raises), or present
with content parsing to a JSON value. -/
inductive FileState where
  | missing
  | unparseable
  | parsed (v : JVal)

/-- `config.load_config` (config.py lines 36-45): return the parsed JSON
content; a missing file, or a file whose read/parse raises, yields `{}`. -/
def load_config : FileState → JVal
  | .missing => .jobj []
  | .unparseable => .jobj []
  | .parsed v => v

/-- The file written by `config.save_config` (config.py lines 48-53):
its JSON content together with the permission bits set by
`os.chmod(CONFIG_FILE, 0o600)`.  `json.dump` followed by `json.load`
round-trips the value, so the content is kept as a `JVal`. -/
structure SavedFile where
  content : JVal
  mode : Nat

/-- `config.save_config`: write the record and chmod it to `0o600`. -/
def save_config (v : JVal) : SavedFile :=
  ⟨v, 0o600⟩

/-- The environment (`os.environ.get`), restricted to what the code reads. -/
def EnvMap : Type := List Char → Option (List Char)

/-- The key `"api_key"` of the persisted record. -/
def akey : List Char := "api_key".data

/-- The key `"provider"` of the persisted record. -/
def pkey : List Char := "provider".data

/-- The `PROVIDERS` table of config.py lines 12-33, in declaration order,
restricted to the data `get_api_key` reads: `(env_var, provider id)`. -/
def providerEnvOrder : List (List Char × List Char) :=
  [("OPENAI_API_KEY".data, "openai".data),
   ("ANTHROPIC_API_KEY".data, "anthropic".data),
   ("GROQ_API_KEY".data, "groq".data),
   ("OPENROUTER_API_KEY".data, "openrouter".data)]

/-- The `for prov_id, prov_info in PROVIDERS.items()` loop of
`get_api_key` (config.py lines 66-69): first provider whose environment
variable holds a truthy (nonempty) value. -/
def firstEnvHit (env : EnvMap) : Option (List Char × List Char) :=
  providerEnvOrder.findSome? (fun q =>
    match env q.1 with
    | some k => if k.isEmpty then none else some (k, q.2)
    | none => none)

/-- `config.get_api_key` (config.py lines 56-75).  Returns the pair the
Python function returns, with Python `None` as `JVal.jnull`.  Note the
code calls `config.get("provider")` before the environment loop; when the
loaded config is not a dict this raises `AttributeError`, modelled as
`.error ()`. -/
def get_api_key (env : EnvMap) (fs : FileState) : Except Unit (JVal × JVal) :=
  match load_config fs with
  | .jobj fields =>
    let provider := (dictLookup fields pkey).getD .jnull
    match firstEnvHit env with
    | some kp => .ok (.jstr kp.1, .jstr kp.2)
    | none =>
      if pyTruthy provider && (dictLookup fields akey).isSome then
        .ok ((dictLookup fields akey).getD .jnull, provider)
      else
        .ok (.jnull, .jnull)
  | _ => .error ()

/-- Python truthiness of an optional string argument (`if provider:`). -/
def strTruthy : Option (List Char) → Bool
  | none => false
  | some s => !s.isEmpty

/-- `config.set_api_key` (config.py lines 78-85): load the config, store
the key, store the provider only when it is truthy, save.  Item
assignment on a non-dict loaded config raises `TypeError`, modelled as
`.error ()`. -/
def set_api_key (api_key : List Char) (provider : Option (List Char))
    (fs : FileState) : Except Unit SavedFile :=
  match load_config fs with
  | .jobj fields =>
    let f1 := dictSet fields akey (.jstr api_key)
    let f2 := if strTruthy provider
              then dictSet f1 pkey (.jstr (provider.getD []))
              else f1
    .ok (save_config (.jobj f2))
  | _ => .error ()

-- Basic lemmas about the dict operations.

theorem dictLookup_append_right {fields : List (List Char × JVal)}
    {k : List Char} (h : dictLookup fields k = none) (v : JVal) :
    dictLookup (fields ++ [(k, v)]) k = some v := by
  induction fields with
  | nil => simp [dictLookup]
  | cons kv rest ih =>
    rw [dictLookup] at h
    by_cases hk : kv.1 = k
    · simp [hk] at h
    · simp only [List.cons_append, dictLookup, hk, if_neg hk] at h ⊢
      exact ih h

theorem dictLookup_replace_self {fields : List (List Char × JVal)}
    {k : List Char} (h : (dictLookup fields k).isSome) (v : JVal) :
    dictLookup (dictReplace fields k v) k = some v := by
  induction fields with
  | nil => simp [dictLookup] at h
  | cons kv rest ih =>
    obtain ⟨k₀, v₀⟩ := kv
    rw [dictReplace]
    by_cases hk : k₀ = k
    · rw [if_pos hk]
      simp [dictLookup]
    · rw [if_neg hk]
      rw [dictLookup, if_neg hk] at h
      rw [dictLookup, if_neg hk]
      exact ih h

theorem dictLookup_replace_other (fields : List (List Char × JVal))
    {k k' : List Char} (v : JVal) (hne : k' ≠ k) :
    dictLookup (dictReplace fields k v) k' = dictLookup fields k' := by
  induction fields with
  | nil => simp [dictReplace]
  | cons kv rest ih =>
    obtain ⟨k₀, v₀⟩ := kv
    rw [dictReplace]
    by_cases hk : k₀ = k
    · have hne' : k ≠ k' := fun hh => hne hh.symm
      have h₀ : ¬k₀ = k' := by rw [hk]; exact hne'
      rw [if_pos hk, dictLookup, if_neg hne', dictLookup, if_neg h₀]
      exact ih
    · rw [if_neg hk, dictLookup, dictLookup]
      by_cases hk' : k₀ = k'
      · rw [if_pos hk', if_pos hk']
      · rw [if_neg hk', if_neg hk']
        exact ih

theorem dictLookup_append_other (fields : List (List Char × JVal))
    {k k' : List Char} (v : JVal) (hne : k' ≠ k) :
    dictLookup (fields ++ [(k, v)]) k' = dictLookup fields k' := by
  induction fields with
  | nil => simp [dictLookup, Ne.symm hne]
  | cons kv rest ih =>
    obtain ⟨k₀, v₀⟩ := kv
    by_cases hk' : k₀ = k'
    · simp [dictLookup, hk']
    · simp [dictLookup, hk', ih]

theorem dictLookup_dictSet_self (fields : List (List Char × JVal))
    (k : List Char) (v : JVal) :
    dictLookup (dictSet fields k v) k = some v := by
  unfold dictSet
  by_cases h : (dictLookup fields k).isSome
  · rw [if_pos h]; exact dictLookup_replace_self h v
  · rw [if_neg h]
    exact dictLookup_append_right (Option.not_isSome_iff_eq_none.mp h) v

theorem dictLookup_dictSet_other (fields : List (List Char × JVal))
    {k k' : List Char} (v : JVal) (hne : k' ≠ k) :
    dictLookup (dictSet fields k v) k' = dictLookup fields k' := by
  unfold dictSet
  by_cases h : (dictLookup fields k).isSome
  · rw [if_pos h]; exact dictLookup_replace_other fields v hne
  · rw [if_neg h]; exact dictLookup_append_other fields v hne

theorem firstEnvHit_none {env : EnvMap}
    (h : ∀ q ∈ providerEnvOrder, env q.1 = none) :
    firstEnvHit env = none := by
  simp only [providerEnvOrder, List.mem_cons, List.not_mem_nil] at h
  have h1 := h _ (Or.inl rfl)
  have h2 := h _ (Or.inr (Or.inl rfl))
  have h3 := h _ (Or.inr (Or.inr (Or.inl rfl)))
  have h4 := h _ (Or.inr (Or.inr (Or.inr (Or.inl rfl))))
  simp [firstEnvHit, providerEnvOrder, List.findSome?, h1, h2, h3, h4]

-- String helpers mirroring Python `str` methods (ASCII-faithful).

/-- Python `str.isspace` for the ASCII whitespace characters relevant to
`str.strip()` and `str.split()`. -/
def isPySpace (c : Char) : Bool :=
  c = ' ' || c = '\t' || c = '\n' || c = '\r' || c = '\x0b' || c = '\x0c'

/-- Drop leading whitespace. -/
def pyStripLeft (l : List Char) : List Char :=
  l.dropWhile isPySpace

/-- Drop trailing whitespace. -/
def pyStripRight (l : List Char) : List Char :=
  (l.reverse.dropWhile isPySpace).reverse

/-- Python `str.strip()` with no argument: drop leading and trailing
whitespace. -/
def pyStrip (l : List Char) : List Char :=
  pyStripRight (pyStripLeft l)

/-- Python `str.lower()` on one character (ASCII range; all strings the
code lowercases in the claims are ASCII). -/
def pyLower (c : Char) : Char :=
  if 'A' ≤ c && c ≤ 'Z' then Char.ofNat (c.toNat + 32) else c

/-- Worker for Python `str.split()`: `cur` is the reversed current token. -/
def splitWsGo : List Char → List Char → List (List Char)
  | [], cur => if cur = [] then [] else [cur.reverse]
  | c :: rest, cur =>
    if isPySpace c then
      if cur = [] then splitWsGo rest [] else cur.reverse :: splitWsGo rest []
    else
      splitWsGo rest (c :: cur)

/-- Python `str.split()` with no argument: split on whitespace runs,
producing no empty tokens. -/
def splitWs (l : List Char) : List (List Char) :=
  splitWsGo l []

-- cli.py: check_tool_exists (lines 16-30).

/-- `shutil.which`, abstracted: resolves a tool name to an executable
path on the system PATH, or `none`. -/
def PathResolver : Type := List Char → Option (List Char)

/-- The shell built-in allow-list of cli.py line 26. -/
def shellBuiltins : List (List Char) :=
  ["cd".data, "echo".data, "export".data, "set".data,
   "source".data, "alias".data]

/-- `cli.check_tool_exists` (cli.py lines 16-30): empty token list is
available; a built-in is available without a PATH lookup; otherwise the
first token must resolve via `shutil.which`. -/
def check_tool_exists (which : PathResolver) (command : List Char) : Bool :=
  match splitWs (pyStrip command) with
  | [] => true
  | tool :: _ =>
    if tool ∈ shellBuiltins then true else (which tool).isSome

-- cli.py: post-processing of the LLM reply (lines 69-73).

/-- `re.sub(r'^```(?:bash|sh)?\n?', '', command)` of cli.py line 71:
if the text starts with three backticks, consume them, then greedily an
optional `bash` or `sh` tag, then an optional newline.  The alternatives
of the pattern are mutually exclusive on any fixed text, so no regex
backtracking can produce a different match. -/
def stripLeadingFence (l : List Char) : List Char :=
  match l with
  | a :: b :: c :: rest =>
    if a = '\x60' ∧ b = '\x60' ∧ c = '\x60' then
      let r1 := if ("bash".data).isPrefixOf rest then rest.drop 4
                else if ("sh".data).isPrefixOf rest then rest.drop 2
                else rest
      match r1 with
      | d :: r2 => if d = '\n' then r2 else d :: r2
      | [] => []
    else l
  | _ => l

/-- Worker for the trailing-fence removal, acting on the reversed text:
drop three leading backticks and then one newline when present. -/
def dropFenceRev (r : List Char) : List Char :=
  match r with
  | a :: b :: c :: rest =>
    if a = '\x60' ∧ b = '\x60' ∧ c = '\x60' then
      match rest with
      | d :: r2 => if d = '\n' then r2 else rest
      | [] => []
    else r
  | _ => r

/-- `re.sub(r'\n?```$', '', command)` of cli.py line 72, on input with no
trailing whitespace (guaranteed by the preceding `strip()`): if the text
ends with three backticks, remove them together with one preceding
newline when present. -/
def stripTrailingFence (l : List Char) : List Char :=
  (dropFenceRev l.reverse).reverse

/-- The post-processing of cli.py lines 69-73:
`strip()`, strip a leading fence, strip a trailing fence, `strip()`. -/
def cleanCommand (l : List Char) : List Char :=
  pyStrip (stripTrailingFence (stripLeadingFence (pyStrip l)))

-- cli.py: handle_set_api_key (lines 80-98).

/-- The bodies `(?:the )?api[ _]?key` can match, enumerated: the literal
texts the optional groups of the patterns of cli.py lines 83-88 accept.
At any fixed position of any text at most one of these literals is
present (they diverge pairwise at their first difference), so trying
them in any order models the regex faithfully. -/
def midVariants : List String :=
  ["the api key", "the api_key", "the apikey", "api key", "api_key", "apikey"]

/-- All literal prefixes `verb (?:the )?api[ _]?key conj` of one pattern. -/
def patPrefixes (verb conj : String) : List (List Char) :=
  midVariants.map (fun m => verb.data ++ m.data ++ conj.data)

/-- Match one pattern at one position: some literal prefix must be
present, and the capture `(.+)` takes the rest of the line (Python `.`
stops at a newline) and must be nonempty. -/
def matchPatAt (ps : List (List Char)) (s : List Char) : Option (List Char) :=
  ps.findSome? (fun p =>
    if p.isPrefixOf s then
      let cap := (s.drop p.length).takeWhile (fun c => c ≠ '\n')
      if cap.isEmpty then none else some cap
    else none)

/-- `re.search`: try the pattern at each position, leftmost match wins. -/
def searchPat (ps : List (List Char)) : List Char → Option (List Char)
  | [] => none
  | c :: rest =>
    match matchPatAt ps (c :: rest) with
    | some cap => some cap
    | none => searchPat ps rest

/-- The four patterns of cli.py lines 83-88, tried in order on the
(already lowercased) prompt; returns the raw capture of `(.+)`. -/
def matchSetKeyAll (s : List Char) : Option (List Char) :=
  match searchPat (patPrefixes "set " " to ") s with
  | some cap => some cap
  | none =>
    match searchPat (patPrefixes "save " " as ") s with
    | some cap => some cap
    | none =>
      match searchPat (patPrefixes "update " " to ") s with
      | some cap => some cap
      | none => searchPat (patPrefixes "change " " to ") s

/-- `cli.handle_set_api_key` (cli.py lines 80-98), as the data it
computes: the pattern is searched in `prompt.lower()`, and the stripped
capture becomes the stored key (`match.group(1).strip()`). -/
def handle_set_api_key (prompt : List Char) : Option (List Char) :=
  (matchSetKeyAll (prompt.map pyLower)).map pyStrip

-- cli.py: main (lines 101-184), modelled in its sequential pieces.

/-- Outcome of main's set-api-key interception (cli.py lines 131-133). -/
inductive EarlyOutcome where
  | setKeyExit0 (sf : SavedFile)
  | continueToCred

/-- cli.py lines 131-133: if `handle_set_api_key(prompt)` fires, the key
has been persisted by `set_api_key(api_key)` (no provider argument) and
main returns 0 without any API interaction; otherwise main continues to
the credential lookup. -/
def mainEarly (prompt : List Char) (fs : FileState) : Except Unit EarlyOutcome :=
  match handle_set_api_key prompt with
  | some stored =>
    match set_api_key stored none fs with
    | .ok sf => .ok (.setKeyExit0 sf)
    | .error e => .error e
  | none => .ok .continueToCred

/-- Python truthiness of the 2-tuple returned by `get_api_key` and
`prompt_for_api_key`.  `main` tests `if not api_key:` on this tuple
(cli.py lines 136-140); a 2-element tuple is always truthy in Python,
whatever it contains. -/
def pairTruthy (_ : JVal × JVal) : Bool := true

/-- Outcome of main's credential acquisition step. -/
inductive CredOutcome where
  | proceedToApi (apiKeyArg : JVal × JVal)
  | exit1

/-- cli.py lines 135-140: `api_key = get_api_key()`, guard
`if not api_key:`, fallback `api_key = prompt_for_api_key()` (whose
result, always a 2-tuple, is the parameter `promptResult`), guard again,
else proceed to `get_command_from_llm(prompt, api_key)`. -/
def mainCredStep (env : EnvMap) (fs : FileState) (promptResult : JVal × JVal) :
    Except Unit CredOutcome :=
  match get_api_key env fs with
  | .error e => .error e
  | .ok apiKey =>
    if pairTruthy apiKey then .ok (.proceedToApi apiKey)
    else if pairTruthy promptResult then .ok (.proceedToApi promptResult)
    else .ok .exit1

/-- Outcome of main's confirmation stage (cli.py lines 158-167). -/
inductive ConfirmOutcome where
  | reported
  | executing
  | cancelled

/-- cli.py lines 158-167: dry-run reports and returns 0; `--yes` skips
the prompt; otherwise the response is stripped, lowercased, and anything
nonempty other than `"y"`/`"yes"` cancels (return 0). -/
def postSynthesis (dryRun yesFlag : Bool) (response : List Char) :
    ConfirmOutcome :=
  if dryRun then .reported
  else if !yesFlag then
    let r := (pyStrip response).map pyLower
    if r ≠ [] ∧ r ≠ "y".data ∧ r ≠ "yes".data then .cancelled
    else .executing
  else .executing

/-- Result of `subprocess.run(command, shell=True, ...)` as main observes
it (cli.py lines 171-184): normal completion with a return code, a
`KeyboardInterrupt`, or any other launch exception. -/
inductive ExecResult where
  | completed (returncode : Int)
  | interrupted
  | launchError

/-- cli.py lines 171-184: the tool's return value after the execution
attempt. -/
def executionExit : ExecResult → Int
  | .completed c => c
  | .interrupted => 130
  | .launchError => 1

/-- The tail of main from the dry-run check onward (cli.py lines
158-184): confirmation outcome, then either return 0 (reported or
cancelled) or the execution result's exit code. -/
def mainTail (dryRun yesFlag : Bool) (response : List Char)
    (exec : ExecResult) : Int :=
  match postSynthesis dryRun yesFlag response with
  | .reported => 0
  | .cancelled => 0
  | .executing => executionExit exec

-- Claim theorems.

/-- C1: the claim says that with no credential anywhere main fails fast
with exit 1 and no API contact.  The code does the opposite: the guard
`if not api_key:` tests the 2-tuple returned by `get_api_key`, which is
always truthy, so with no environment variable and no config file main
still proceeds to the hosted-API call, passing the tuple
`(None, None)` as the key, and the exit-1 branch is unreachable for
every possible interactive-prompt result. -/
theorem C1_main_never_fails_fast :
    (∀ promptResult : JVal × JVal,
      mainCredStep (fun _ => none) .missing promptResult =
        .ok (.proceedToApi (.jnull, .jnull))) ∧
    (∀ (env : EnvMap) (fs : FileState) (promptResult : JVal × JVal),
      mainCredStep env fs promptResult ≠ .ok .exit1) := by
  constructor
  · intro promptResult
    rfl
  · intro env fs promptResult h
    unfold mainCredStep at h
    cases hg : get_api_key env fs with
    | error e => rw [hg] at h; exact Except.noConfusion h
    | ok t =>
      rw [hg] at h
      simp only [pairTruthy, if_pos] at h
      exact CredOutcome.noConfusion (Except.ok.inj h)

/-- C2 counterexample: for the prompt `"set the api key to ABC"` the
payload after the matched phrase is `"ABC"`, but the code matches and
captures on `prompt.lower()`, so the persisted secret is `"abc"`, not
the payload `"ABC"`. -/
theorem C2_counterexample_lowercased_secret :
    mainEarly ("set the api key to ABC".data) .missing =
      .ok (.setKeyExit0 ⟨.jobj [(akey, .jstr ("abc".data))], 0o600⟩) ∧
    "abc".data ≠ "ABC".data := by
  exact ⟨rfl, by decide⟩

/-- C2 amended: whenever the lowercased prompt matches one of the
set/save/update/change patterns, main persists the stripped capture
taken from the lowercased prompt as the stored API key and returns 0
before any hosted-API interaction (the stored secret therefore equals
the payload only up to lowercasing). -/
theorem C2_amended_set_key_intercepted
    (prompt : List Char) (fs : FileState)
    (fields : List (List Char × JVal)) (cap : List Char)
    (hm : matchSetKeyAll (prompt.map pyLower) = some cap)
    (hfs : load_config fs = .jobj fields) :
    mainEarly prompt fs =
      .ok (.setKeyExit0
        ⟨.jobj (dictSet fields akey (.jstr (pyStrip cap))), 0o600⟩) := by
  unfold mainEarly handle_set_api_key
  rw [hm]
  unfold set_api_key
  rw [hfs]
  rfl

/-- C2 witness: the claim's own example.  The prompt
`"set the api key to sk-test123"` persists the secret `sk-test123`
(with no provider entry) and main returns 0. -/
theorem C2_witness_sk_test123 :
    mainEarly ("set the api key to sk-test123".data) .missing =
      .ok (.setKeyExit0 ⟨.jobj [(akey, .jstr ("sk-test123".data))], 0o600⟩) :=
  C2_amended_set_key_intercepted ("set the api key to sk-test123".data)
    .missing [] ("sk-test123".data) (by decide) rfl

/-- C3 counterexample: a persisted file holding a legacy bare secret
string (raw, not valid JSON — e.g. `sk-legacy`) does not yield that
secret: the read path treats the file as absent and the lookup returns
`(None, None)` rather than a valid secret. -/
theorem C3_counterexample_bare_secret_not_returned :
    get_api_key (fun _ => none) .unparseable = .ok (.jnull, .jnull) ∧
    (JVal.jnull ≠ .jstr ("sk-legacy".data)) := by
  refine ⟨rfl, fun h => JVal.noConfusion h⟩

/-- C3 amended: a legacy bare-secret file whose raw content is not valid
JSON is tolerated without raising, but it is treated exactly as an
absent file: `load_config` yields `{}` and the credential lookup
behaves as if no file existed (so the bare secret is never returned). -/
theorem C3_amended_legacy_treated_as_absent :
    (∀ env : EnvMap,
      get_api_key env .unparseable = get_api_key env .missing) ∧
    load_config .unparseable = .jobj [] ∧
    get_api_key (fun _ => none) .unparseable = .ok (.jnull, .jnull) := by
  exact ⟨fun env => rfl, rfl, rfl⟩

/-- C5: the claim (and the comment in `load_config`) says every
unreadable or legacy content is treated as absent and no later
credential operation faults.  A file whose content is valid JSON but
not an object — e.g. the JSON text `"sk-legacy"`, a legacy secret saved
as a JSON string — refutes this: `load_config` returns the bare string
instead of `{}`, and both `get_api_key` (via `config.get`,
AttributeError) and `set_api_key` (via item assignment, TypeError)
raise on the loaded result. -/
theorem C5_nonobject_json_faults :
    load_config (.parsed (.jstr ("sk-legacy".data))) =
      .jstr ("sk-legacy".data) ∧
    get_api_key (fun _ => none) (.parsed (.jstr ("sk-legacy".data))) =
      .error () ∧
    set_api_key ("new-key".data) none (.parsed (.jstr ("sk-legacy".data))) =
      .error () := by
  exact ⟨rfl, rfl, rfl⟩

-- Lemmas about whitespace stripping and fence removal.

theorem pyStripRight_concat (xs : List Char) (x : Char)
    (hx : isPySpace x = false) :
    pyStripRight (xs ++ [x]) = xs ++ [x] := by
  unfold pyStripRight
  simp [List.dropWhile_cons, hx]

theorem pyStrip_btk_sandwich (mid : List Char) :
    pyStrip ('\x60' :: (mid ++ ['\x60'])) = '\x60' :: (mid ++ ['\x60'])
    := by
  have hbt : isPySpace '\x60' = false := rfl
  show pyStripRight (pyStripLeft _) = _
  rw [show pyStripLeft ('\x60' :: (mid ++ ['\x60'])) =
        '\x60' :: (mid ++ ['\x60']) from by
      simp [pyStripLeft, List.dropWhile_cons, hbt]]
  rw [show ('\x60' : Char) :: (mid ++ ['\x60']) =
        ('\x60' :: mid) ++ ['\x60'] from by simp]
  exact pyStripRight_concat _ _ hbt

theorem stripTrailingFence_wrapTail (c : List Char) :
    stripTrailingFence (c ++ '\n' :: "```".data) = c := by
  unfold stripTrailingFence
  rw [show (c ++ '\n' :: "```".data).reverse =
        '\x60' :: '\x60' :: '\x60' :: '\n' :: c.reverse from by simp]
  rw [show dropFenceRev ('\x60' :: '\x60' :: '\x60' :: '\n' :: c.reverse) =
        c.reverse from rfl]
  exact List.reverse_reverse c

/-- C4 counterexample: the reply `"```python\nls -la\n```"` is wrapped in
a fenced code block with a language tag, yet post-processing yields
`"python\nls -la"`, not the inner command line `"ls -la"`: the code only
strips the tags `bash` and `sh`. -/
theorem C4_counterexample_python_tag :
    cleanCommand ("```python\nls -la\n```".data) = ("python\nls -la".data) ∧
    ("python\nls -la".data ≠ "ls -la".data) := by
  exact ⟨by decide, by decide⟩

/-- C4 amended: for a reply wrapped in a triple-backtick fenced code
block whose language tag is absent, `bash`, or `sh`, post-processing
yields exactly the inner (already whitespace-clean) command line. -/
theorem C4_amended_fence_stripped (tag c : List Char)
    (htag : tag = [] ∨ tag = "bash".data ∨ tag = "sh".data)
    (hc : pyStrip c = c) :
    cleanCommand ("```".data ++ tag ++ '\n' :: (c ++ '\n' :: "```".data)) =
      c := by
  rcases htag with h | h | h <;> subst h
  · have h1 : pyStrip ("```".data ++ [] ++ '\n' ::
        (c ++ '\n' :: "```".data)) =
        "```".data ++ [] ++ '\n' :: (c ++ '\n' :: "```".data) := by
      rw [show "```".data ++ [] ++ '\n' :: (c ++ '\n' :: "```".data) =
            '\x60' :: (('\x60' :: '\x60' :: '\n' ::
              (c ++ ['\n', '\x60', '\x60'])) ++ ['\x60']) from by simp]
      exact pyStrip_btk_sandwich _
    calc cleanCommand ("```".data ++ [] ++ '\n' :: (c ++ '\n' :: "```".data))
        = pyStrip (stripTrailingFence (stripLeadingFence (pyStrip
            ("```".data ++ [] ++ '\n' :: (c ++ '\n' :: "```".data))))) := rfl
      _ = pyStrip (stripTrailingFence (c ++ '\n' :: "```".data)) := by
          rw [h1]; rfl
      _ = pyStrip c := by rw [stripTrailingFence_wrapTail]
      _ = c := hc
  · have h1 : pyStrip ("```".data ++ "bash".data ++ '\n' ::
        (c ++ '\n' :: "```".data)) =
        "```".data ++ "bash".data ++ '\n' :: (c ++ '\n' :: "```".data) := by
      rw [show "```".data ++ "bash".data ++ '\n' ::
            (c ++ '\n' :: "```".data) =
            '\x60' :: (('\x60' :: '\x60' :: 'b' :: 'a' :: 's' :: 'h' :: '\n' ::
              (c ++ ['\n', '\x60', '\x60'])) ++ ['\x60']) from by simp]
      exact pyStrip_btk_sandwich _
    calc cleanCommand ("```".data ++ "bash".data ++ '\n' ::
          (c ++ '\n' :: "```".data))
        = pyStrip (stripTrailingFence (stripLeadingFence (pyStrip
            ("```".data ++ "bash".data ++ '\n' ::
              (c ++ '\n' :: "```".data))))) := rfl
      _ = pyStrip (stripTrailingFence (c ++ '\n' :: "```".data)) := by
          rw [h1]; rfl
      _ = pyStrip c := by rw [stripTrailingFence_wrapTail]
      _ = c := hc
  · have h1 : pyStrip ("```".data ++ "sh".data ++ '\n' ::
        (c ++ '\n' :: "```".data)) =
        "```".data ++ "sh".data ++ '\n' :: (c ++ '\n' :: "```".data) := by
      rw [show "```".data ++ "sh".data ++ '\n' ::
            (c ++ '\n' :: "```".data) =
            '\x60' :: (('\x60' :: '\x60' :: 's' :: 'h' :: '\n' ::
              (c ++ ['\n', '\x60', '\x60'])) ++ ['\x60']) from by simp]
      exact pyStrip_btk_sandwich _
    calc cleanCommand ("```".data ++ "sh".data ++ '\n' ::
          (c ++ '\n' :: "```".data))
        = pyStrip (stripTrailingFence (stripLeadingFence (pyStrip
            ("```".data ++ "sh".data ++ '\n' ::
              (c ++ '\n' :: "```".data))))) := rfl
      _ = pyStrip (stripTrailingFence (c ++ '\n' :: "```".data)) := by
          rw [h1]; rfl
      _ = pyStrip c := by rw [stripTrailingFence_wrapTail]
      _ = c := hc

/-- C4 witness: the spec's example `"```bash\nls -la\n```"` yields
exactly `"ls -la"`. -/
theorem C4_witness_bash_ls :
    cleanCommand ("```bash\nls -la\n```".data) = "ls -la".data :=
  C4_amended_fence_stripped ("bash".data) ("ls -la".data)
    (Or.inr (Or.inl rfl)) (by decide)

/-- C6: with no provider environment variable set, `set_api_key(s, p)`
followed by `get_api_key()` returns exactly `(s, p)`, and the file
written by the save carries permission bits `0o600`.  The starting
config state may be any state whose load yields a dict (a missing or
corrupted file loads as `{}`); the provider, being a provider
identifier, is nonempty. -/
theorem C6_set_get_roundtrip (s p : List Char) (env : EnvMap)
    (fs : FileState) (fields : List (List Char × JVal))
    (henv : ∀ q ∈ providerEnvOrder, env q.1 = none)
    (hfs : load_config fs = .jobj fields)
    (hp : p ≠ []) :
    ∃ sf : SavedFile,
      set_api_key s (some p) fs = .ok sf ∧
      sf.mode = 0o600 ∧
      get_api_key env (.parsed sf.content) = .ok (.jstr s, .jstr p) := by
  rcases p with _ | ⟨a, t⟩
  · exact absurd rfl hp
  have hset : set_api_key s (some (a :: t)) fs =
      .ok ⟨.jobj (dictSet (dictSet fields akey (.jstr s)) pkey
        (.jstr (a :: t))), 0o600⟩ := by
    unfold set_api_key
    rw [hfs]
    rfl
  refine ⟨_, hset, rfl, ?_⟩
  have hpk : dictLookup (dictSet (dictSet fields akey (.jstr s)) pkey
      (.jstr (a :: t))) pkey = some (.jstr (a :: t)) :=
    dictLookup_dictSet_self _ _ _
  have hak : dictLookup (dictSet (dictSet fields akey (.jstr s)) pkey
      (.jstr (a :: t))) akey = some (.jstr s) := by
    rw [dictLookup_dictSet_other _ _ (by decide : akey ≠ pkey)]
    exact dictLookup_dictSet_self _ _ _
  unfold get_api_key
  simp only [load_config, firstEnvHit_none henv, hpk, hak, Option.getD_some,
    Option.isSome_some, pyTruthy, List.isEmpty_cons, Bool.not_false,
    Bool.and_self, if_true]

/-- C6 witness: a concrete round-trip through an initially missing
config file. -/
theorem C6_witness_roundtrip :
    ∃ sf : SavedFile,
      set_api_key ("sk-1".data) (some ("openai".data)) .missing = .ok sf ∧
      sf.mode = 0o600 ∧
      get_api_key (fun _ => none) (.parsed sf.content) =
        .ok (.jstr ("sk-1".data), .jstr ("openai".data)) :=
  C6_set_get_roundtrip ("sk-1".data) ("openai".data) (fun _ => none)
    .missing [] (fun _ _ => rfl) rfl (by decide)

/-- C10: a secret persisted by `set_api_key(s)` with the provider
omitted is present in the saved file under `"api_key"`, yet a
subsequent `get_api_key()` (with no provider environment variable set
and no provider tag in the stored configuration) returns
`(None, None)`: the lookup never returns a secret without a provider
tag. -/
theorem C10_providerless_secret_not_returned (s : List Char) (env : EnvMap)
    (fs : FileState) (fields : List (List Char × JVal))
    (henv : ∀ q ∈ providerEnvOrder, env q.1 = none)
    (hfs : load_config fs = .jobj fields)
    (hnoprov : dictLookup fields pkey = none) :
    ∃ sf : SavedFile,
      set_api_key s none fs = .ok sf ∧
      sf.content = .jobj (dictSet fields akey (.jstr s)) ∧
      dictLookup (dictSet fields akey (.jstr s)) akey = some (.jstr s) ∧
      get_api_key env (.parsed sf.content) = .ok (.jnull, .jnull) := by
  have hset : set_api_key s none fs =
      .ok ⟨.jobj (dictSet fields akey (.jstr s)), 0o600⟩ := by
    unfold set_api_key
    rw [hfs]
    rfl
  refine ⟨_, hset, rfl, dictLookup_dictSet_self _ _ _, ?_⟩
  have hpk : dictLookup (dictSet fields akey (.jstr s)) pkey = none := by
    rw [dictLookup_dictSet_other _ _ (by decide : pkey ≠ akey)]
    exact hnoprov
  unfold get_api_key
  simp only [load_config, firstEnvHit_none henv, hpk, Option.getD_none,
    pyTruthy, Bool.false_and, if_false]
  rfl

/-- C10 witness: a concrete secret saved without a provider into a
missing config file is stored but never returned. -/
theorem C10_witness_providerless :
    ∃ sf : SavedFile,
      set_api_key ("sk-x".data) none .missing = .ok sf ∧
      sf.content = .jobj (dictSet [] akey (.jstr ("sk-x".data))) ∧
      dictLookup (dictSet [] akey (.jstr ("sk-x".data))) akey =
        some (.jstr ("sk-x".data)) ∧
      get_api_key (fun _ => none) (.parsed sf.content) =
        .ok (.jnull, .jnull) :=
  C10_providerless_secret_not_returned ("sk-x".data) (fun _ => none)
    .missing [] (fun _ _ => rfl) rfl rfl

/-- C7 counterexample: in interactive mode the response `"y"` is neither
`"yes"` nor empty, yet execution proceeds — the code also accepts
`"y"`. -/
theorem C7_counterexample_y_executes :
    postSynthesis false false ("y".data) = .executing ∧
    "y".data ≠ ([] : List Char) ∧ "y".data ≠ "yes".data := by
  exact ⟨rfl, by decide, by decide⟩

/-- C7 amended: in interactive mode (neither `--dry-run` nor `--yes`),
a response whose stripped lowercased form is empty, `"y"`, or `"yes"`
leads to execution, and any other response leads to Cancelled: no
execution and exit code 0. -/
theorem C7_amended_interactive_confirmation (response : List Char)
    (exec : ExecResult) :
    (((pyStrip response).map pyLower = [] ∨
      (pyStrip response).map pyLower = "y".data ∨
      (pyStrip response).map pyLower = "yes".data) →
      postSynthesis false false response = .executing) ∧
    (((pyStrip response).map pyLower ≠ [] ∧
      (pyStrip response).map pyLower ≠ "y".data ∧
      (pyStrip response).map pyLower ≠ "yes".data) →
      postSynthesis false false response = .cancelled ∧
      mainTail false false response exec = 0) := by
  constructor
  · intro h
    have hC : ¬((pyStrip response).map pyLower ≠ [] ∧
        (pyStrip response).map pyLower ≠ "y".data ∧
        (pyStrip response).map pyLower ≠ "yes".data) := by
      rcases h with h | h | h
      · exact fun hC => hC.1 h
      · exact fun hC => hC.2.1 h
      · exact fun hC => hC.2.2 h
    show (if (pyStrip response).map pyLower ≠ [] ∧
        (pyStrip response).map pyLower ≠ "y".data ∧
        (pyStrip response).map pyLower ≠ "yes".data
      then ConfirmOutcome.cancelled else ConfirmOutcome.executing) =
        ConfirmOutcome.executing
    rw [if_neg hC]
  · intro h
    have hps : postSynthesis false false response = .cancelled := by
      show (if (pyStrip response).map pyLower ≠ [] ∧
          (pyStrip response).map pyLower ≠ "y".data ∧
          (pyStrip response).map pyLower ≠ "yes".data
        then ConfirmOutcome.cancelled else ConfirmOutcome.executing) =
          ConfirmOutcome.cancelled
      rw [if_pos h]
    refine ⟨hps, ?_⟩
    unfold mainTail
    rw [hps]

/-- C7 witness: the spec's example — response `"n"` cancels with exit
code 0. -/
theorem C7_witness_n_cancels :
    postSynthesis false false ("n".data) = .cancelled ∧
    mainTail false false ("n".data) (.completed 7) = 0 :=
  (C7_amended_interactive_confirmation ("n".data) (.completed 7)).2
    (by refine ⟨?_, ?_, ?_⟩ <;> decide)

/-- C8: whenever the confirmation stage decides to execute and the
child process completes normally, main returns exactly the child's
return code, for every child exit code. -/
theorem C8_exit_code_propagation (dryRun yesFlag : Bool)
    (response : List Char) (c : Int)
    (h : postSynthesis dryRun yesFlag response = .executing) :
    mainTail dryRun yesFlag response (.completed c) = c := by
  unfold mainTail
  rw [h]
  rfl

/-- C8 witness: with `--yes` and a child exiting 42, main returns 42. -/
theorem C8_witness_exit_42 :
    mainTail false true [] (.completed 42) = 42 :=
  C8_exit_code_propagation false true [] 42 rfl

-- Lemmas about whitespace-splitting, for the tool-availability claim.

theorem splitWsGo_ne_nil (l : List Char) (cur : List Char) (h : cur ≠ []) :
    splitWsGo l cur ≠ [] := by
  induction l generalizing cur with
  | nil => simp [splitWsGo, h]
  | cons c rest ih =>
    by_cases hs : isPySpace c
    · simp [splitWsGo, hs, h]
    · rw [splitWsGo, if_neg hs]
      exact ih (c :: cur) (by simp)

theorem splitWsGo_nil_iff (l : List Char) :
    splitWsGo l [] = [] ↔ ∀ c ∈ l, isPySpace c = true := by
  induction l with
  | nil => simp [splitWsGo]
  | cons c rest ih =>
    by_cases hs : isPySpace c
    · rw [splitWsGo, if_pos hs]
      simp [hs, ih]
    · rw [splitWsGo, if_neg hs]
      constructor
      · intro h
        exact absurd h (splitWsGo_ne_nil rest [c] (by simp))
      · intro h
        exact absurd (h c (List.mem_cons_self c rest)) (by simpa using hs)

theorem all_dropWhile_iff (p : Char → Bool) (l : List Char) :
    (∀ c ∈ l.dropWhile p, p c = true) ↔ (∀ c ∈ l, p c = true) := by
  constructor
  · intro h c hc
    have hsplit : c ∈ l.takeWhile p ++ l.dropWhile p := by
      rw [List.takeWhile_append_dropWhile]
      exact hc
    rcases List.mem_append.mp hsplit with h1 | h2
    · exact List.mem_takeWhile_imp h1
    · exact h c h2
  · intro h c hc
    exact h c ((List.dropWhile_sublist p).subset hc)

theorem all_pyStrip_iff (l : List Char) :
    (∀ c ∈ pyStrip l, isPySpace c = true) ↔
    (∀ c ∈ l, isPySpace c = true) := by
  unfold pyStrip pyStripRight pyStripLeft
  constructor
  · intro h
    have ha : ∀ c ∈ ((l.dropWhile isPySpace).reverse.dropWhile isPySpace),
        isPySpace c = true := fun c hc => h c (List.mem_reverse.mpr hc)
    have hb : ∀ c ∈ (l.dropWhile isPySpace).reverse, isPySpace c = true :=
      (all_dropWhile_iff isPySpace _).mp ha
    have hc2 : ∀ c ∈ l.dropWhile isPySpace, isPySpace c = true :=
      fun c hc => hb c (List.mem_reverse.mpr hc)
    exact (all_dropWhile_iff isPySpace l).mp hc2
  · intro h c hc
    have h1 := List.mem_reverse.mp hc
    have h2 := (List.dropWhile_sublist isPySpace).subset h1
    have h3 := List.mem_reverse.mp h2
    exact h c ((List.dropWhile_sublist isPySpace).subset h3)

theorem splitWs_pyStrip_nil_iff (cmd : List Char) :
    splitWs (pyStrip cmd) = [] ↔ ∀ c ∈ cmd, isPySpace c = true :=
  (splitWsGo_nil_iff (pyStrip cmd)).trans (all_pyStrip_iff cmd)

/-- C9: the tool-availability check returns true iff the command is
empty or whitespace-only, or its first whitespace-delimited token is a
recognized shell built-in, or that token resolves on the PATH; in
particular `nonexistent_binary_xyz --flag` is unavailable when the PATH
resolver does not know the token, and `cd /tmp` is available for every
PATH resolver (so without any PATH lookup). -/
theorem C9_tool_availability :
    (∀ (which : PathResolver) (cmd : List Char),
      check_tool_exists which cmd = true ↔
        ((∀ c ∈ cmd, isPySpace c = true) ∨
         ∃ t rest, splitWs (pyStrip cmd) = t :: rest ∧
           (t ∈ shellBuiltins ∨ (which t).isSome = true))) ∧
    (∀ which : PathResolver,
      which ("nonexistent_binary_xyz".data) = none →
      check_tool_exists which ("nonexistent_binary_xyz --flag".data) =
        false) ∧
    (∀ which : PathResolver,
      check_tool_exists which ("cd /tmp".data) = true) := by
  refine ⟨?_, ?_, ?_⟩
  · intro which cmd
    unfold check_tool_exists
    cases h : splitWs (pyStrip cmd) with
    | nil =>
      constructor
      · intro _
        exact Or.inl ((splitWs_pyStrip_nil_iff cmd).mp h)
      · intro _
        rfl
    | cons t rest =>
      constructor
      · intro hl
        replace hl : (if t ∈ shellBuiltins then true
            else (which t).isSome) = true := hl
        refine Or.inr ⟨t, rest, rfl, ?_⟩
        by_cases hb : t ∈ shellBuiltins
        · exact Or.inl hb
        · rw [if_neg hb] at hl
          exact Or.inr hl
      · intro hr
        show (if t ∈ shellBuiltins then true else (which t).isSome) = true
        rcases hr with hsp | ⟨t', rest', heq, hor⟩
        · exact List.noConfusion
            (((splitWs_pyStrip_nil_iff cmd).mpr hsp).symm.trans h)
        · injection heq with ht hrest
          subst ht
          by_cases hb : t ∈ shellBuiltins
          · rw [if_pos hb]
          · rw [if_neg hb]
            rcases hor with hb2 | hs2
            · exact absurd hb2 hb
            · exact hs2
  · intro which hw
    unfold check_tool_exists
    have : splitWs (pyStrip ("nonexistent_binary_xyz --flag".data)) =
        ["nonexistent_binary_xyz".data, "--flag".data] := by decide
    rw [this]
    simp only []
    rw [if_neg (by decide)]
    rw [hw]
    rfl
  · intro which
    rfl

/-- C9 witness: with a PATH resolver that knows no tool,
`nonexistent_binary_xyz --flag` is reported unavailable. -/
theorem C9_witness_nonexistent :
    check_tool_exists (fun _ => none)
      ("nonexistent_binary_xyz --flag".data) = false :=
  C9_tool_availability.2.1 (fun _ => none) rfl
